import Mathlib

/-!
Verification development for the ReviewLens job orchestration and
aggregation engine.  Python source functions are shallowly embedded as
executable Lean definitions: Python `str` values are modelled as
`List Char`, DynamoDB items as records with `Option`-valued attributes
(an attribute may be absent), and the per-job batch pipeline as an
explicit state machine.
-/

set_option autoImplicit false
set_option maxRecDepth 10000

namespace ReviewLens

/-- Character list of a string literal (Python `str` values are modelled as
`List Char`). -/
def strL (s : String) : List Char :=
  s.data

/-! ### Text sanitization (src/01-splitter-lambda/main.py `sanitize_text`,
identical copy in src/02-sentiment-lambda/main.py) -/

/-- Membership test for the regex class
`[\x00-\x08\x0b\x0c\x0e-\x1f\x7f-\x9f]` of non-printable control
characters removed by `sanitize_text`. -/
def isCtl (c : Char) : Bool :=
  c.toNat ≤ 0x08 || c.toNat = 0x0b || c.toNat = 0x0c ||
    (0x0e ≤ c.toNat && c.toNat ≤ 0x1f) ||
    (0x7f ≤ c.toNat && c.toNat ≤ 0x9f)

/-- Embedding of `text.replace('&', 'and')`: every ampersand is replaced by
the three characters `and`. -/
def replaceAmp : List Char → List Char
  | [] => []
  | c :: t => if c = '&' then 'a' :: 'n' :: 'd' :: replaceAmp t else c :: replaceAmp t

/-- Embedding of `re.sub(r'[\x00-\x08\x0b\x0c\x0e-\x1f\x7f-\x9f]', '', text)`:
all control characters in the class are deleted. -/
def removeCtl (l : List Char) : List Char :=
  l.filter (fun c => !isCtl c)

/-- Body of `sanitize_text` on an actual string: first the ampersand
replacement, then the control-character removal, exactly in source order. -/
def sanitize_chars (l : List Char) : List Char :=
  removeCtl (replaceAmp l)

/-- A Python value reaching `sanitize_text`: either a `str` or any
non-string value (NaN, None, a number, ...). -/
inductive PyValue where
  | str (s : List Char)
  | nonstr
deriving DecidableEq

/-- Embedding of `sanitize_text` (src/01-splitter-lambda/main.py lines
52-74; the identical function also appears in
src/02-sentiment-lambda/main.py lines 42-59): non-strings map to the empty
string, strings get the ampersand replacement followed by the
control-character removal. -/
def sanitize_text : PyValue → List Char
  | .str s => sanitize_chars s
  | .nonstr => []

/-! ### Batching (src/01-splitter-lambda/main.py lines 187-193) -/

/-- Fuel-driven worker for `chunksOf`; the fuel is an upper bound on the
number of chunks still to produce, so `l.length` always suffices when the
batch size is positive. -/
def chunksGo {α : Type} : Nat → Nat → List α → List (List α)
  | 0, _, _ => []
  | _ + 1, _, [] => []
  | f + 1, B, a :: t => (a :: t).take B :: chunksGo f B ((a :: t).drop B)

/-- Embedding of the splitter's batch partitioning
`[mapped_df.iloc[i:i + BATCH_SIZE] for i in range(0, len(mapped_df), BATCH_SIZE)]`:
contiguous slices of size `B`, the last one possibly smaller. -/
def chunksOf {α : Type} (B : Nat) (l : List α) : List (List α) :=
  chunksGo l.length B l

lemma chunksGo_nil {α : Type} (fuel B : Nat) : chunksGo (α := α) fuel B [] = [] := by
  cases fuel <;> rfl

lemma chunksGo_ne_nil {α : Type} (fuel B : Nat) (l : List α) (hf : 0 < fuel)
    (hl : l ≠ []) : chunksGo fuel B l ≠ [] := by
  cases fuel with
  | zero => omega
  | succ f =>
    cases l with
    | nil => exact absurd rfl hl
    | cons a t => simp [chunksGo]

lemma chunksGo_join {α : Type} :
    ∀ (fuel B : Nat) (l : List α), l.length ≤ fuel → 0 < B →
      (chunksGo fuel B l).flatten = l := by
  intro fuel
  induction fuel with
  | zero =>
    intro B l hl _
    have : l = [] := List.eq_nil_of_length_eq_zero (Nat.le_zero.mp hl)
    subst this
    rfl
  | succ f ih =>
    intro B l hl hB
    cases l with
    | nil => rfl
    | cons a t =>
      have hdrop : ((a :: t).drop B).length ≤ f := by
        rw [List.length_drop]
        simp only [List.length_cons] at hl ⊢
        omega
      simp only [chunksGo, List.flatten_cons, ih B _ hdrop hB,
        List.take_append_drop]

lemma chunksGo_length {α : Type} :
    ∀ (fuel B : Nat) (l : List α), l.length ≤ fuel → 0 < B →
      (chunksGo fuel B l).length = (l.length + B - 1) / B := by
  intro fuel
  induction fuel with
  | zero =>
    intro B l hl hB
    have : l = [] := List.eq_nil_of_length_eq_zero (Nat.le_zero.mp hl)
    subst this
    simp [chunksGo, Nat.div_eq_of_lt, hB]
  | succ f ih =>
    intro B l hl hB
    cases l with
    | nil =>
      simp [chunksGo, Nat.div_eq_of_lt, hB]
    | cons a t =>
      have hdrop : ((a :: t).drop B).length ≤ f := by
        rw [List.length_drop]
        simp only [List.length_cons] at hl ⊢
        omega
      have hrec := ih B _ hdrop hB
      simp only [chunksGo, List.length_cons, List.length_drop] at hrec ⊢
      rw [hrec]
      rcases le_or_lt B (t.length + 1) with hBn | hBn
      · have heq : t.length + 1 + B - 1 = (t.length + 1 - B + B - 1) + B := by omega
        rw [heq, Nat.add_div_right _ hB]
      · have h0 : t.length + 1 - B = 0 := by omega
        rw [h0]
        have hl1 : (0 + B - 1) / B = 0 := by
          apply Nat.div_eq_of_lt
          omega
        have hl2 : (t.length + 1 + B - 1) / B = 1 := by
          apply Nat.div_eq_of_lt_le <;> omega
        omega

lemma chunksGo_size_le {α : Type} :
    ∀ (fuel B : Nat) (l : List α), l.length ≤ fuel → 0 < B →
      ∀ c ∈ chunksGo fuel B l, c.length ≤ B ∧ c ≠ [] := by
  intro fuel
  induction fuel with
  | zero =>
    intro B l hl _ c hc
    have : l = [] := List.eq_nil_of_length_eq_zero (Nat.le_zero.mp hl)
    subst this
    simp [chunksGo] at hc
  | succ f ih =>
    intro B l hl hB c hc
    cases l with
    | nil => simp [chunksGo] at hc
    | cons a t =>
      simp only [chunksGo, List.mem_cons] at hc
      rcases hc with rfl | hc
      · constructor
        · simp
        · simp
          omega
      · have hdrop : ((a :: t).drop B).length ≤ f := by
          rw [List.length_drop]
          simp only [List.length_cons] at hl ⊢
          omega
        exact ih B _ hdrop hB c hc

lemma chunksGo_dropLast_size {α : Type} :
    ∀ (fuel B : Nat) (l : List α), l.length ≤ fuel → 0 < B →
      ∀ c ∈ (chunksGo fuel B l).dropLast, c.length = B := by
  intro fuel
  induction fuel with
  | zero =>
    intro B l hl _ c hc
    have : l = [] := List.eq_nil_of_length_eq_zero (Nat.le_zero.mp hl)
    subst this
    simp [chunksGo] at hc
  | succ f ih =>
    intro B l hl hB c hc
    cases l with
    | nil => simp [chunksGo] at hc
    | cons a t =>
      by_cases hrest : (a :: t).drop B = []
      · simp [chunksGo, hrest, chunksGo_nil] at hc
      · have hdrop : ((a :: t).drop B).length ≤ f := by
          rw [List.length_drop]
          simp only [List.length_cons] at hl ⊢
          omega
        have hf : 0 < f := by
          rcases Nat.eq_zero_or_pos f with rfl | hf
          · exact absurd (List.eq_nil_of_length_eq_zero (Nat.le_zero.mp hdrop)) hrest
          · exact hf
        have hne := chunksGo_ne_nil f B _ hf hrest
        rw [show chunksGo (f + 1) B (a :: t)
              = (a :: t).take B :: chunksGo f B ((a :: t).drop B) from rfl,
          List.dropLast_cons_of_ne_nil hne] at hc
        rcases List.mem_cons.mp hc with rfl | hc
        · have hBlen : B ≤ (a :: t).length := by
            have := List.length_drop B (a :: t)
            by_contra hcon
            push_neg at hcon
            exact hrest (List.drop_eq_nil_of_le (Nat.le_of_lt hcon))
          simpa using Nat.min_eq_left hBlen
        · exact ih B _ hdrop hB c hc

/-! ### Idempotence lemmas for sanitization -/

lemma amp_not_mem_replaceAmp (l : List Char) : '&' ∉ replaceAmp l := by
  induction l with
  | nil => simp [replaceAmp]
  | cons c t ih =>
    by_cases hc : c = '&' <;> simp [replaceAmp, hc, ih]
    exact fun h => hc h.symm

lemma replaceAmp_eq_self {l : List Char} (h : '&' ∉ l) : replaceAmp l = l := by
  induction l with
  | nil => rfl
  | cons c t ih =>
    have hc : c ≠ '&' := fun hcc => h (hcc ▸ List.mem_cons_self c t)
    have ht : '&' ∉ t := fun htt => h (List.mem_cons_of_mem c htt)
    simp [replaceAmp, hc, ih ht]

lemma removeCtl_idem (l : List Char) : removeCtl (removeCtl l) = removeCtl l := by
  simp [removeCtl, List.filter_filter]

lemma sanitize_chars_idem (l : List Char) :
    sanitize_chars (sanitize_chars l) = sanitize_chars l := by
  have hamp : '&' ∉ removeCtl (replaceAmp l) := by
    intro hmem
    exact amp_not_mem_replaceAmp l (List.mem_of_mem_filter hmem)
  show removeCtl (replaceAmp (removeCtl (replaceAmp l))) = removeCtl (replaceAmp l)
  rw [replaceAmp_eq_self hamp]
  exact removeCtl_idem _

/-! ### Job records and the DynamoDB table
(job record schema of spec section 6; attributes are optional because a
DynamoDB item holds only the attributes some write actually set) -/

/-- A persisted job record.  Every field is optional: `put_item` without an
attribute leaves it absent, and `ADD` on a missing item creates an item
holding only the counter. -/
structure JobRecord where
  status : Option String
  total_batches : Option Nat
  processed_batches : Option Nat
  source_file : Option String
  error_message : Option String
deriving DecidableEq

/-- The jobs table, keyed by `job_id`. -/
def Table : Type :=
  String → Option JobRecord

/-- Result of one splitter invocation that reached the registration step:
the table afterwards, the number of Step Function executions started, and
the HTTP-style response. -/
structure SplitterOut where
  table : Table
  executions : Nat
  statusCode : Nat
  body : String

/-- Embedding of the splitter handler from the point where the cleaned rows
are known (src/01-splitter-lambda/main.py lines 187-265): split into chunks,
conditionally register the job (`attribute_not_exists(job_id)`), and on
success fan out one execution per chunk.  A conditional-write failure is the
`ConditionalCheckFailedException` branch: the handler returns 200
"Duplicate job skipped." without touching the table and without starting any
execution.  Invocations that raise before registration are modelled
separately by `Op.splitterFail`. -/
def splitter_handler (B : Nat) (jid : String) (rows : List (List Char))
    (src : String) (t : Table) : SplitterOut :=
  let chunks := chunksOf B rows
  let total_batches := chunks.length
  match t jid with
  | some _ => ⟨t, 0, 200, "Duplicate job skipped."⟩
  | none =>
      ⟨fun j => if j = jid then
          some ⟨some "IN_PROGRESS", some total_batches, some 0, some src, none⟩
        else t j,
       total_batches, 200, "Job started."⟩

/-! ### Single-job state machine (operations of
src/01-splitter-lambda, src/04-absa-lambda and src/05-stitcher-lambda on
one job record; per spec section 1 there is no cross-job interaction) -/

/-- State of one job: its DynamoDB record (if any) and one completion flag
per launched batch execution.  The flags model the Step Function
executions, so they survive a record overwrite. -/
structure SysState where
  record : Option JobRecord
  batches : List Bool
deriving DecidableEq

/-- The record with no attributes beside the key. -/
def emptyRec : JobRecord :=
  ⟨none, none, none, none, none⟩

/-- DynamoDB `ADD processed_batches :inc` with `:inc = 1`
(src/04-absa-lambda/main.py lines 195-202): an atomic counter add that
treats a missing attribute as 0 and creates the item when absent. -/
def addProcessed : Option JobRecord → Option JobRecord
  | some r => some { r with processed_batches := some (r.processed_batches.getD 0 + 1) }
  | none => some { emptyRec with processed_batches := some 1 }

/-- The stitcher helper `update_job_status`
(src/05-stitcher-lambda/main.py lines 66-83): `SET #st = :s`, plus
`error_message` only when a message is supplied; a `SET` update creates the
item when absent and leaves all other attributes alone. -/
def applySetStatus (rec : Option JobRecord) (st : String) (msg : Option String) :
    Option JobRecord :=
  let r := rec.getD emptyRec
  some { r with
    status := some st,
    error_message := match msg with | some m => some m | none => r.error_message }

/-- One operation on a job:
* `register tb` - the splitter's conditional `put_item` plus fan-out of
  `tb` executions (lines 202-214 and 241-262 of the splitter);
* `complete i` - successful completion of batch execution `i`, ending in
  the ABSA lambda's atomic counter add (an execution completes at most
  once; the substrate retries only failed executions);
* `splitterFail msg` - the splitter's failure-recording `put_item` (lines
  228-235), reachable after registration when the same content is uploaded
  again with metadata that fails validation: it REPLACES the whole item
  with `{job_id, status, error_message}`;
* `setStatus st msg` - the stitcher's `update_job_status`. -/
inductive Op where
  | register (tb : Nat)
  | complete (i : Nat)
  | splitterFail (msg : String)
  | setStatus (st : String) (msg : Option String)
deriving DecidableEq

/-- Whether an operation is the splitter's failure-recording overwrite. -/
def Op.isFail : Op → Bool
  | .splitterFail _ => true
  | _ => false

/-- One atomic step of the job state machine.  Operations whose DynamoDB
precondition fails (duplicate registration, re-completion of an already
completed batch, completion of a never-launched batch) are no-ops. -/
def step (s : SysState) : Op → SysState
  | .register tb =>
      match s.record with
      | some _ => s
      | none =>
          { record := some ⟨some "IN_PROGRESS", some tb, some 0,
              some "s3://bronze-bucket/uploads/", none⟩,
            batches := List.replicate tb false }
  | .complete i =>
      if s.batches.getD i true then s
      else { record := addProcessed s.record, batches := s.batches.set i true }
  | .splitterFail msg =>
      { record := some ⟨some "SPLITTER_FAILED", none, none, none, some msg⟩,
        batches := s.batches }
  | .setStatus st msg =>
      { record := applySetStatus s.record st msg, batches := s.batches }

/-- The state with no job record and no launched executions. -/
def initState : SysState :=
  ⟨none, []⟩

/-- Run a sequence of operations from the empty state; every reachable
state of one job is `run ops` for some interleaving `ops`. -/
def run (ops : List Op) : SysState :=
  ops.foldl step initState

/-- The value a reader obtains for `processed_batches`
(`item.get('processed_batches', 0)`). -/
def processedRead (s : SysState) : Nat :=
  match s.record with
  | none => 0
  | some r => r.processed_batches.getD 0

/-- The value a reader obtains for `total_batches`
(`item.get('total_batches', 0)`). -/
def totalRead (s : SysState) : Nat :=
  match s.record with
  | none => 0
  | some r => r.total_batches.getD 0

/-! ### Status endpoint (src/api-status-checker-lambda/main.py) -/

/-- Round half to even, the rounding mode of Python `round`
(modelled exactly over the rationals; the source computes with floats). -/
def round_half_even (x : ℚ) : ℤ :=
  if x - ⌊x⌋ < 1 / 2 then ⌊x⌋
  else if 1 / 2 < x - ⌊x⌋ then ⌊x⌋ + 1
  else if ⌊x⌋ % 2 = 0 then ⌊x⌋ else ⌊x⌋ + 1

/-- Python `round(x, 2)`. -/
def pyRound2 (x : ℚ) : ℚ :=
  (round_half_even (x * 100) : ℚ) / 100

/-- The `status` value in the endpoint response
(src/api-status-checker-lambda/main.py lines 67-78): the stored status,
replaced by the read-time projection `PROCESSING_COMPLETE` exactly when
`processed >= total and current_status == 'IN_PROGRESS' and total > 0`,
where `current_status = item.get('status', 'UNKNOWN')`. -/
def reported_status (r : JobRecord) : Option String :=
  if r.processed_batches.getD 0 ≥ r.total_batches.getD 0 ∧
      r.status.getD "UNKNOWN" = "IN_PROGRESS" ∧ r.total_batches.getD 0 > 0
  then some "PROCESSING_COMPLETE"
  else r.status

/-- The `progress_percentage` value in the endpoint response (lines 72-75):
`round((processed / total) * 100, 2)` when `total > 0`, else `0`. -/
def reported_pct (r : JobRecord) : ℚ :=
  if 0 < r.total_batches.getD 0 then
    pyRound2 ((r.processed_batches.getD 0 : ℚ) / (r.total_batches.getD 0 : ℚ) * 100)
  else 0

/-- The status endpoint (GET /status/job_id): 404 when the record is
absent, otherwise 200 with the projected status and the computed
percentage.  The handler performs no table write: the projection is
read-time only. -/
def status_handler (t : Table) (jid : String) : Nat × Option (Option String × ℚ) :=
  match t jid with
  | none => (404, none)
  | some r => (200, some (reported_status r, reported_pct r))

/-! ### Label-set resolution (src/03-zeroshot-lambda/main.py lines 83-99,
src/04-absa-lambda/main.py lines 145-157) -/

/-- Python whitespace characters recognised by `str.strip()` and
`str.split()` (ASCII range). -/
def isSpace (c : Char) : Bool :=
  c = ' ' || c = '\t' || c = '\n' || c = '\r' || c.toNat = 0x0b || c.toNat = 0x0c

/-- Python `s.strip()`. -/
def pyStrip (l : List Char) : List Char :=
  ((l.dropWhile isSpace).reverse.dropWhile isSpace).reverse

/-- Python `s.split(',')`: the comma-separated pieces of `s`, keeping empty
pieces (so the result is never the empty list). -/
def splitComma : List Char → List (List Char)
  | [] => [[]]
  | c :: t =>
      match splitComma t with
      | [] => [[]]
      | w :: ws => if c = ',' then [] :: w :: ws else (c :: w) :: ws

/-- The list comprehension
`[label.strip() for label in labels_str.split(',') if label.strip()]`
shared by both stages. -/
def parseLabels (labels_str : List Char) : List (List Char) :=
  ((splitComma labels_str).map pyStrip).filter (fun w => !w.isEmpty)

/-- Candidate-label resolution shared by the zero-shot stage (lines 87-99,
where `config.get('zero_shot_labels')` is `None` when absent) and the ABSA
stage (lines 149-157, where `config.get('absa_labels', DEFAULT)` already
falls back on absence): the default replaces the configured string exactly
when the latter is absent, `None`, or the empty string (`if not
labels_str`); any other string, including a whitespace-only one, is parsed
as-is. -/
def resolve_labels (cfg : Option (List Char)) (d : List Char) : List (List Char) :=
  let labels_str := match cfg with
    | none => d
    | some s => if s = [] then d else s
  parseLabels labels_str

/-- `DEFAULT_ZERO_SHOT_LABELS` (identical in splitter and zero-shot
lambdas). -/
def DEFAULT_ZERO_SHOT_LABELS : List Char :=
  strL "price,quality,shipping,customer service,fit,fabric"

/-- `DEFAULT_ABSA_LABELS` (identical in splitter and ABSA lambdas). -/
def DEFAULT_ABSA_LABELS : List Char :=
  strL "slow delivery,fast delivery,damaged box,good quality,poor quality,good fit,tight fit,good price,expensive"

/-! ### Enrichment stages.  The underlying transformer pipelines are
external black boxes (spec section 1), so each embedded stage takes the
inference call as a function argument; `.error` is the model raising. -/

/-- Embedding of `get_top_topic` (src/03-zeroshot-lambda/main.py lines
43-64).  `zs text` models `zero_shot_classifier(text, candidate_labels)`
returning the ranked label list; taking `['labels'][0]` of an empty result
raises and is caught, hence the `.ok []` case also yields `"ERROR"`. -/
def get_top_topic (zs : List Char → Except Unit (List (List Char)))
    (candidate_labels : List (List Char)) (review_text : List Char) : List Char :=
  if review_text = [] ∨ pyStrip review_text = [] then strL "N/A (No text provided)"
  else if candidate_labels = [] then strL "N/A (No labels provided)"
  else
    match zs (review_text.take 512) with
    | .ok (l :: _) => l
    | .ok [] => strL "ERROR"
    | .error _ => strL "ERROR"

/-- Embedding of `get_sentiment` (src/02-sentiment-lambda/main.py lines
61-78): the pipeline is called on the first 512 characters; any raised
exception is caught and replaced by the sentinel `"ERROR"`. -/
def get_sentiment (pipe : List Char → Except Unit (List Char))
    (text : List Char) : List Char :=
  match pipe (text.take 512) with
  | .ok label => label
  | .error _ => strL "ERROR"

/-- The sentiment handler body on the batch text column
(src/02-sentiment-lambda/main.py lines 96-115): re-sanitize every text,
then derive the sentiment column; the result is the pair of the updated
text column and the new sentiment column. -/
def sentiment_handler (pipe : List Char → Except Unit (List Char))
    (texts : List (List Char)) : List (List Char) × List (List Char) :=
  let clean := texts.map sanitize_chars
  (clean, clean.map (get_sentiment pipe))

/-- Python `str.split()` (no argument: split on whitespace runs, dropping
empty pieces), worker with an accumulator for the current word. -/
def pySplitWsGo (acc : List Char) : List Char → List (List Char)
  | [] => if acc = [] then [] else [acc.reverse]
  | c :: t =>
      if isSpace c then
        if acc = [] then pySplitWsGo [] t else acc.reverse :: pySplitWsGo [] t
      else pySplitWsGo (c :: acc) t

/-- Python `str.split()`. -/
def pySplitWs (l : List Char) : List (List Char) :=
  pySplitWsGo [] l

/-- The ABSA truncation `" ".join(review_text.split()[:400])`. -/
def truncate400 (text : List Char) : List Char :=
  List.intercalate (strL " ") ((pySplitWs text).take 400)

/-- Python `f"{score:.2f}"`, modelled with exact rational rounding. -/
def fmt2 (q : ℚ) : List Char :=
  let n := round_half_even (q * 100)
  let m := n.natAbs
  let fracPart := (if m % 100 < 10 then ['0'] else []) ++ Nat.toDigits 10 (m % 100)
  (if n < 0 then ['-'] else []) ++ Nat.toDigits 10 (m / 100) ++ ['.'] ++ fracPart

/-- Embedding of `get_aspects` (src/04-absa-lambda/main.py lines 78-121).
`clf text` models `zero_shot_classifier(text, aspect_labels,
multi_label=True)` returning label/score pairs; a raised exception is
caught and replaced by the sentinel `"PREDICTION_ERROR"`.  The handler has
already applied `fillna("").astype(str)`, so the argument is always a
string and the non-string guard reduces to the blank-text check. -/
def get_aspects (clf : List Char → Except Unit (List (List Char × ℚ)))
    (aspect_labels : List (List Char)) (threshold : ℚ)
    (review_text : List Char) : List Char :=
  if pyStrip review_text = [] then strL "N/A"
  else if aspect_labels = [] then strL "N/A (No labels provided)"
  else
    match clf (truncate400 review_text) with
    | .error _ => strL "PREDICTION_ERROR"
    | .ok results =>
        let matching := (results.filter (fun lp => threshold ≤ lp.2)).map
          (fun lp => lp.1 ++ strL " (" ++ fmt2 lp.2 ++ strL ")")
        if matching = [] then strL "N/A" else List.intercalate (strL ", ") matching

/-- Result of one ABSA handler invocation: the derived aspects column, the
parquet artifact persisted to the silver bucket (its aspects column, under
an execution-unique key), and the job record after the counter add. -/
structure AbsaOut where
  aspects : List (List Char)
  artifact : Option (List (List Char))
  record : Option JobRecord
deriving DecidableEq

/-- Embedding of the ABSA handler body (src/04-absa-lambda/main.py lines
144-210) on the batch text column: resolve the labels, derive the aspects
column record by record, persist the artifact, then atomically add 1 to
`processed_batches`. -/
def absa_handler (clf : List Char → Except Unit (List (List Char × ℚ)))
    (labels_cfg : Option (List Char)) (threshold : ℚ)
    (texts : List (List Char)) (rec : Option JobRecord) : AbsaOut :=
  let aspect_sentiment_labels := resolve_labels labels_cfg DEFAULT_ABSA_LABELS
  let aspects := texts.map
    (fun x => get_aspects clf aspect_sentiment_labels threshold x)
  { aspects := aspects, artifact := some aspects, record := addProcessed rec }

/-! ### Aggregator topic step (src/05-stitcher-lambda/main.py lines
137-157) -/

/-- Outcome of the stitcher's topic-modelling step: either the per-record
assignments together with the optional topic-summary artifact, or the
`ValueError` path (the exception propagates to the global handler, which
records `STITCHING_FAILED`; no summary and no assignments are produced). -/
inductive StitchOutcome (T : Type) where
  | ok (assignments : List Int) (summary : Option T)
  | failed
deriving DecidableEq

/-- Embedding of the stitcher's topic-modelling step on the merged text
column, where `none` entries are null values (`NaN`):
`docs = df['full_review_text'].dropna().astype(str).tolist()`.  When
`docs` is empty, the scalar assignment `df_final['bertopic_id'] = -1`
gives every record the outlier sentinel and no summary artifact is
produced.  When `docs` is non-empty, `fit docs` models
`BERTOPIC_MODEL.fit_transform(docs)` together with `get_topic_info()`;
the list assignment `df_final['bertopic_id'] = topics` (line 145) succeeds
only when the assignment list is as long as the whole frame - otherwise
pandas raises `ValueError` before the summary write, which the global
handler turns into `STITCHING_FAILED` - and the summary artifact is
written only after that assignment. -/
def stitcher_topics {T : Type} (fit : List (List Char) → List Int × T)
    (texts : List (Option (List Char))) : StitchOutcome T :=
  let docs := texts.filterMap id
  if docs.isEmpty then .ok (texts.map (fun _ => -1)) none
  else
    let p := fit docs
    if p.1.length = texts.length then .ok p.1 (some p.2) else .failed

/-! ### State-machine invariant lemmas -/

lemma countTrue_set (bs : List Bool) :
    ∀ i : Nat, bs.getD i true = false →
      (bs.set i true).count true = bs.count true + 1 := by
  induction bs with
  | nil => intro i h; simp at h
  | cons b t ih =>
    intro i h
    cases i with
    | zero =>
      simp only [List.getD_cons_zero] at h
      subst h
      simp [List.count_cons]
    | succ j =>
      simp only [List.getD_cons_succ] at h
      simp only [List.set_cons_succ, List.count_cons, ih j h]
      omega

/-- The inductive invariant tying the record's counters to the launched
executions: the readable counter is the number of completed batches and
the readable total is the number of launched batches. -/
def StateInv (s : SysState) : Prop :=
  processedRead s = s.batches.count true ∧ totalRead s = s.batches.length

lemma stateInv_init : StateInv initState := by
  constructor <;> rfl

lemma stateInv_step (s : SysState) (op : Op) (hop : op.isFail = false)
    (h : StateInv s) : StateInv (step s op) := by
  obtain ⟨h1, h2⟩ := h
  cases op with
  | register tb =>
    cases hrec : s.record with
    | some r => simpa [step, hrec] using ⟨h1, h2⟩
    | none =>
      constructor
      · simp [step, hrec, processedRead, List.count_replicate]
      · simp [step, hrec, totalRead]
  | complete i =>
    by_cases hflag : s.batches.getD i true
    · rw [List.getD_eq_getElem?_getD] at hflag
      exact ⟨by simpa [step, hflag] using h1, by simpa [step, hflag] using h2⟩
    · rw [Bool.not_eq_true] at hflag
      have hcount : (s.batches.set i true).count true = s.batches.count true + 1 :=
        countTrue_set s.batches i hflag
      rw [List.getD_eq_getElem?_getD] at hflag
      have hstep : step s (Op.complete i)
          = ⟨addProcessed s.record, s.batches.set i true⟩ := by
        simp [step, hflag]
      rw [hstep]
      constructor
      · cases hrec : s.record with
        | none =>
          simp [processedRead, addProcessed, hrec] at h1 ⊢
          omega
        | some r =>
          simp [processedRead, addProcessed, hrec] at h1 ⊢
          omega
      · cases hrec : s.record with
        | none =>
          simp [totalRead, addProcessed, emptyRec, hrec] at h2 ⊢
          omega
        | some r =>
          simp [totalRead, addProcessed, hrec] at h2 ⊢
          omega
  | splitterFail msg => simp [Op.isFail] at hop
  | setStatus st msg =>
    cases hrec : s.record with
    | none =>
      constructor
      · simp [step, hrec, processedRead, applySetStatus, emptyRec] at h1 ⊢
        omega
      · simp [step, hrec, totalRead, applySetStatus, emptyRec] at h2 ⊢
        omega
    | some r =>
      constructor
      · simpa [step, hrec, processedRead, applySetStatus] using h1
      · simpa [step, hrec, totalRead, applySetStatus] using h2

lemma stateInv_foldl (ops : List Op) :
    ∀ s : SysState, StateInv s → (∀ op ∈ ops, op.isFail = false) →
      StateInv (ops.foldl step s) := by
  induction ops with
  | nil => intro s h _; exact h
  | cons op rest ih =>
    intro s h hops
    exact ih (step s op)
      (stateInv_step s op (hops op (List.mem_cons_self op rest)) h)
      (fun o ho => hops o (List.mem_cons_of_mem op ho))

lemma stateInv_run (ops : List Op) (hops : ∀ op ∈ ops, op.isFail = false) :
    StateInv (run ops) :=
  stateInv_foldl ops initState stateInv_init hops

lemma processedRead_step_mono (s : SysState) (op : Op) (hop : op.isFail = false) :
    processedRead s ≤ processedRead (step s op) := by
  cases op with
  | register tb =>
    cases hrec : s.record with
    | some r => simp [step, hrec]
    | none => simp [step, hrec, processedRead]
  | complete i =>
    by_cases hflag : s.batches.getD i true
    · rw [List.getD_eq_getElem?_getD] at hflag
      simp [step, hflag]
    · rw [Bool.not_eq_true, List.getD_eq_getElem?_getD] at hflag
      cases hrec : s.record with
      | none => simp [step, hflag, hrec, processedRead, addProcessed]
      | some r => simp [step, hflag, hrec, processedRead, addProcessed]
  | splitterFail msg => simp [Op.isFail] at hop
  | setStatus st msg =>
    cases hrec : s.record with
    | none => simp [step, hrec, processedRead, applySetStatus, emptyRec]
    | some r => simp [step, hrec, processedRead, applySetStatus]

lemma processedRead_complete_exact (s : SysState) (i : Nat)
    (hflag : s.batches.getD i true = false) :
    processedRead (step s (Op.complete i)) = processedRead s + 1 := by
  rw [List.getD_eq_getElem?_getD] at hflag
  cases hrec : s.record with
  | none => simp [step, hflag, hrec, processedRead, addProcessed, emptyRec]
  | some r => simp [step, hflag, hrec, processedRead, addProcessed]

lemma record_total_frame (s : SysState) (op : Op) (r : JobRecord)
    (hrec : s.record = some r) (hop : op.isFail = false) :
    (step s op).record.map JobRecord.total_batches = some r.total_batches := by
  cases op with
  | register tb => simp [step, hrec]
  | complete i =>
    by_cases hflag : s.batches.getD i true
    · rw [List.getD_eq_getElem?_getD] at hflag
      simp [step, hflag, hrec]
    · rw [Bool.not_eq_true, List.getD_eq_getElem?_getD] at hflag
      simp [step, hflag, hrec, addProcessed]
  | splitterFail msg => simp [Op.isFail] at hop
  | setStatus st msg => simp [step, hrec, applySetStatus]

lemma record_never_deleted (s : SysState) (op : Op) (r : JobRecord)
    (hrec : s.record = some r) : (step s op).record ≠ none := by
  cases op with
  | register tb => simp [step, hrec]
  | complete i =>
    by_cases hflag : s.batches.getD i true
    · rw [List.getD_eq_getElem?_getD] at hflag
      simp [step, hflag, hrec]
    · rw [Bool.not_eq_true, List.getD_eq_getElem?_getD] at hflag
      simp [step, hflag, hrec, addProcessed]
  | splitterFail msg => simp [step]
  | setStatus st msg => simp [step, applySetStatus]

/-! ## Claim theorems -/

/-- C1: for every pair of submissions of byte-identical content (same
content hash / ETag, hence same `job_id`), the second submission leaves the
existing job record unchanged (in particular `total_batches` keeps its
registered value), is treated as a successful no-op (HTTP 200, duplicate
skip) rather than an error, and launches zero additional batch pipeline
executions.  The second invocation may even carry arbitrary rows: the
conditional write rejects it regardless. -/
lemma splitter_handler_dup (B : Nat) (jid src : String) (rows : List (List Char))
    (t : Table) (r : JobRecord) (h : t jid = some r) :
    splitter_handler B jid rows src t = ⟨t, 0, 200, "Duplicate job skipped."⟩ := by
  unfold splitter_handler
  rw [h]

lemma splitter_handler_fresh (B : Nat) (jid src : String) (rows : List (List Char))
    (t : Table) (h : t jid = none) :
    splitter_handler B jid rows src t =
      ⟨fun j => if j = jid then
          some ⟨some "IN_PROGRESS", some (chunksOf B rows).length, some 0, some src, none⟩
        else t j,
       (chunksOf B rows).length, 200, "Job started."⟩ := by
  unfold splitter_handler
  rw [h]

theorem c1_idempotent_registration (B : Nat) (jid src src2 : String)
    (rows rows2 : List (List Char)) (t0 : Table) (h : t0 jid = none) :
    (splitter_handler B jid rows src t0).table jid =
      some ⟨some "IN_PROGRESS", some (chunksOf B rows).length, some 0, some src, none⟩ ∧
    (splitter_handler B jid rows src t0).executions = (chunksOf B rows).length ∧
    splitter_handler B jid rows2 src2 (splitter_handler B jid rows src t0).table =
      ⟨(splitter_handler B jid rows src t0).table, 0, 200, "Duplicate job skipped."⟩ := by
  have h2 : (splitter_handler B jid rows src t0).table jid =
      some ⟨some "IN_PROGRESS", some (chunksOf B rows).length, some 0, some src, none⟩ := by
    rw [splitter_handler_fresh B jid src rows t0 h]
    simp
  exact ⟨h2, by rw [splitter_handler_fresh B jid src rows t0 h],
    splitter_handler_dup B jid src2 rows2 _ _ h2⟩

/-- C1 witness: a concrete first submission followed by a duplicate
submission of the same single-row content. -/
theorem c1_idempotent_registration_witness :
    (splitter_handler 100 "etag1" [strL "great product"] "s3://b/uploads/u1/"
        (fun _ => none)).table "etag1" =
      some ⟨some "IN_PROGRESS", some 1, some 0, some "s3://b/uploads/u1/", none⟩ ∧
    (splitter_handler 100 "etag1" [strL "great product"] "s3://b/uploads/u1/"
        (fun _ => none)).executions = 1 ∧
    splitter_handler 100 "etag1" [strL "great product"] "s3://b/uploads/u1/"
        (splitter_handler 100 "etag1" [strL "great product"] "s3://b/uploads/u1/"
          (fun _ => none)).table =
      ⟨(splitter_handler 100 "etag1" [strL "great product"] "s3://b/uploads/u1/"
          (fun _ => none)).table, 0, 200, "Duplicate job skipped."⟩ :=
  c1_idempotent_registration 100 "etag1" "s3://b/uploads/u1/" "s3://b/uploads/u1/"
    [strL "great product"] [strL "great product"] (fun _ => none) rfl

/-- C2 counterexample: the claim fails on the code.  Trace: register a job
with two batches, complete batch 0 (counter 1), then a re-upload of the
same content with invalid metadata triggers the splitter failure-recording
`put_item`, which replaces the whole record (counter drops from 1 to
absent, read as 0 - the counter decreased), and when the still-in-flight
batch 1 completes, the atomic add recreates the counter at 1 while
`total_batches` is absent (read as 0), so `processed_batches >
total_batches`. -/
theorem c2_counter_counterexample :
    totalRead (run [Op.register 2, Op.complete 0,
        Op.splitterFail "bad mapping metadata", Op.complete 1]) <
      processedRead (run [Op.register 2, Op.complete 0,
        Op.splitterFail "bad mapping metadata", Op.complete 1]) ∧
    processedRead (run [Op.register 2, Op.complete 0,
        Op.splitterFail "bad mapping metadata"]) <
      processedRead (run [Op.register 2, Op.complete 0]) := by
  constructor <;> decide

/-- C2 amended: in every reachable state whose history contains no splitter
failure-recording overwrite, `0 <= processed_batches <= total_batches`
(the lower bound holds because counters are naturals), the counter equals
the number of completed batch executions (so N concurrent completions sum
to exactly N - no lost updates), the counter never decreases under any
further overwrite-free operation, and each successful batch completion
increments it by exactly 1. -/
theorem c2_counter_invariant (ops : List Op)
    (hops : ∀ op ∈ ops, op.isFail = false) :
    processedRead (run ops) ≤ totalRead (run ops) ∧
    processedRead (run ops) = (run ops).batches.count true ∧
    (∀ op : Op, op.isFail = false →
      processedRead (run ops) ≤ processedRead (step (run ops) op)) ∧
    (∀ i : Nat, (run ops).batches.getD i true = false →
      processedRead (step (run ops) (Op.complete i)) = processedRead (run ops) + 1) := by
  obtain ⟨h1, h2⟩ := stateInv_run ops hops
  refine ⟨?_, h1, fun op hop => processedRead_step_mono (run ops) op hop,
    fun i hi => processedRead_complete_exact (run ops) i hi⟩
  rw [h1, h2]
  exact List.count_le_length true (run ops).batches

/-- C2 witness: the invariant instantiated on the concrete overwrite-free
trace register, complete 0, set STITCHING, complete 1. -/
theorem c2_counter_invariant_witness :
    processedRead (run [Op.register 2, Op.complete 0,
        Op.setStatus "STITCHING" none, Op.complete 1]) ≤
      totalRead (run [Op.register 2, Op.complete 0,
        Op.setStatus "STITCHING" none, Op.complete 1]) ∧
    processedRead (run [Op.register 2, Op.complete 0,
        Op.setStatus "STITCHING" none, Op.complete 1]) =
      (run [Op.register 2, Op.complete 0,
        Op.setStatus "STITCHING" none, Op.complete 1]).batches.count true :=
  have h := c2_counter_invariant
    [Op.register 2, Op.complete 0, Op.setStatus "STITCHING" none, Op.complete 1]
    (by decide)
  ⟨h.1, h.2.1⟩

/-- C4 counterexample: the claim fails on the code.  After registration
with `total_batches = 3`, the splitter failure-recording `put_item`
(triggered by a failing re-upload of the same content) replaces the whole
item, leaving the record present but with `total_batches` absent instead
of its registered value 3. -/
theorem c4_frame_counterexample :
    (run [Op.register 3]).record.map JobRecord.total_batches = some (some 3) ∧
    (run [Op.register 3, Op.splitterFail "bad mapping metadata"]).record.map
        JobRecord.total_batches = some none ∧
    some (none : Option Nat) ≠ some (some 3) := by
  refine ⟨by decide, by decide, by decide⟩

/-- C4 amended: after a job record is created at registration, batch
counter increments, duplicate registrations and stitcher status
transitions (including stitcher failure recording) all leave
`total_batches` at its registered value, and no operation - the splitter
failure-recording overwrite included - ever deletes the job record; the
splitter failure-recording overwrite, however, replaces the record and
drops `total_batches`. -/
theorem c4_total_batches_frame :
    (∀ (s : SysState) (op : Op) (r : JobRecord), s.record = some r →
      op.isFail = false →
      (step s op).record.map JobRecord.total_batches = some r.total_batches) ∧
    (∀ (s : SysState) (op : Op) (r : JobRecord), s.record = some r →
      (step s op).record ≠ none) ∧
    (∀ (tb : Nat) (ops : List Op), (∀ op ∈ ops, op.isFail = false) →
      (ops.foldl step (step initState (Op.register tb))).record.map
        JobRecord.total_batches = some (some tb)) := by
  refine ⟨record_total_frame, record_never_deleted, ?_⟩
  intro tb ops hops
  have hstart : (step initState (Op.register tb)).record.map
      JobRecord.total_batches = some (some tb) := by
    simp [step, initState]
  revert hstart
  generalize step initState (Op.register tb) = s
  induction ops generalizing s with
  | nil => intro h; exact h
  | cons op rest ih =>
    intro hstart
    cases hrec : s.record with
    | none => simp [hrec] at hstart
    | some r =>
      have hr : r.total_batches = some tb := by
        simp [hrec] at hstart
        exact hstart
      refine ih (fun o ho => hops o (List.mem_cons_of_mem op ho)) (step s op) ?_
      rw [record_total_frame s op r hrec (hops op (List.mem_cons_self op rest)), hr]

/-- C4 witness: the frame instantiated on a record with `total_batches = 5`
under a counter increment, and on a concrete overwrite-free trace. -/
theorem c4_total_batches_frame_witness :
    (step ⟨some ⟨some "IN_PROGRESS", some 5, some 2, none, none⟩,
        [true, true, false, false, false]⟩ (Op.complete 2)).record.map
      JobRecord.total_batches = some (some 5) ∧
    ([Op.complete 0, Op.setStatus "STITCHING" none, Op.setStatus "COMPLETED" none].foldl
        step (step initState (Op.register 1))).record.map
      JobRecord.total_batches = some (some 1) :=
  ⟨c4_total_batches_frame.1 _ (Op.complete 2) _ rfl rfl,
   c4_total_batches_frame.2.2 1 _ (by decide)⟩

/-- C8: the splitter text sanitization is idempotent - for every input
value `v` (string or not), `sanitize_text(sanitize_text(v)) =
sanitize_text(v)` - so the identical sanitization re-applied by the
downstream sentiment stage leaves already-sanitized text unchanged. -/
theorem c8_sanitize_idempotent (v : PyValue) :
    sanitize_text (PyValue.str (sanitize_text v)) = sanitize_text v := by
  cases v with
  | str l => exact sanitize_chars_idem l
  | nonstr => rfl

/-- C9: for every dataset and every batch size `B > 0`, the splitter
partitions the rows into `ceil(row_count / B)` ordered contiguous batches
(their concatenation is the original row list), each non-empty and of size
at most `B`, every batch except possibly the last of size exactly `B`; in
particular 250 rows with batch size 100 give batch sizes [100, 100, 50]
and `total_batches = 3`. -/
theorem c9_batch_partition {α : Type} (B : Nat) (l : List α) (hB : 0 < B) :
    (chunksOf B l).flatten = l ∧
    (chunksOf B l).length = (l.length + B - 1) / B ∧
    (∀ c ∈ (chunksOf B l).dropLast, c.length = B) ∧
    (∀ c ∈ chunksOf B l, c.length ≤ B ∧ c ≠ []) ∧
    (chunksOf 100 (List.replicate 250 (0 : Nat))).map List.length = [100, 100, 50] ∧
    (chunksOf 100 (List.replicate 250 (0 : Nat))).length = 3 := by
  refine ⟨chunksGo_join l.length B l (Nat.le_refl _) hB,
    chunksGo_length l.length B l (Nat.le_refl _) hB,
    chunksGo_dropLast_size l.length B l (Nat.le_refl _) hB,
    chunksGo_size_le l.length B l (Nat.le_refl _) hB,
    by decide, by decide⟩

/-- C9 witness: the partition statement instantiated at batch size 2 on a
five-row dataset. -/
theorem c9_batch_partition_witness :
    (chunksOf 2 [10, 20, 30, 40, 50]).flatten = [10, 20, 30, 40, 50] ∧
    (chunksOf 2 [10, 20, 30, 40, 50]).length = (5 + 2 - 1) / 2 :=
  have h := c9_batch_partition 2 [10, 20, 30, 40, 50] (by decide)
  ⟨h.1, h.2.1⟩

lemma reported_status_of_ne (r : JobRecord) (st : String) (hr : r.status = some st)
    (hne : st ≠ "IN_PROGRESS") : reported_status r = some st := by
  unfold reported_status
  rw [hr, if_neg]
  intro hcond
  exact hne (by simpa using hcond.2.1)

/-- C3 counterexample: the claim fails on the code.  A record whose stored
status is already `COMPLETED` with `processed_batches = total_batches = 2
> 0` is reported as `COMPLETED`, not `PROCESSING_COMPLETE` (the projection
is gated on the stored status being `IN_PROGRESS`), and a record with
`processed = 1, total = 3` is reported with percentage `33.33` (Python
`round(x, 2)`), not the exact value `1/3*100`. -/
theorem c3_projection_counterexample :
    (⟨some "COMPLETED", some 2, some 2, none, none⟩ : JobRecord).processed_batches.getD 0 =
      (⟨some "COMPLETED", some 2, some 2, none, none⟩ : JobRecord).total_batches.getD 0 ∧
    0 < (⟨some "COMPLETED", some 2, some 2, none, none⟩ : JobRecord).total_batches.getD 0 ∧
    reported_status ⟨some "COMPLETED", some 2, some 2, none, none⟩ ≠
      some "PROCESSING_COMPLETE" ∧
    reported_pct ⟨some "IN_PROGRESS", some 3, some 1, none, none⟩ ≠ (1 : ℚ) / 3 * 100 := by
  refine ⟨by decide, by decide, by decide, ?_⟩
  have hfloor : ⌊((1 : ℚ) / 3 * 100) * 100⌋ = 3333 := by
    rw [Int.floor_eq_iff]
    constructor <;> norm_num
  have hrhe : round_half_even (((1 : ℚ) / 3 * 100) * 100) = 3333 := by
    unfold round_half_even
    rw [hfloor]
    norm_num
  have hpy : pyRound2 ((1 : ℚ) / 3 * 100) = 3333 / 100 := by
    unfold pyRound2
    rw [hrhe]
    norm_num
  have hrp : reported_pct ⟨some "IN_PROGRESS", some 3, some 1, none, none⟩ =
      pyRound2 ((1 : ℚ) / 3 * 100) := by
    unfold reported_pct
    norm_num
  rw [hrp, hpy]
  norm_num

/-- C3 amended: for every stored job record, if the stored status is
`IN_PROGRESS` and `processed_batches = total_batches > 0` then the status
endpoint reports `PROCESSING_COMPLETE` (a read-time projection - the
handler performs no write); it always reports `progress_percentage =
round(processed_batches / total_batches * 100, 2)` (two-decimal rounding),
with `0` when `total_batches` is 0. -/
theorem c3_projection (r : JobRecord) :
    (r.status = some "IN_PROGRESS" → 0 < r.total_batches.getD 0 →
      r.processed_batches.getD 0 = r.total_batches.getD 0 →
      reported_status r = some "PROCESSING_COMPLETE") ∧
    (0 < r.total_batches.getD 0 →
      reported_pct r =
        pyRound2 ((r.processed_batches.getD 0 : ℚ) /
          (r.total_batches.getD 0 : ℚ) * 100)) ∧
    (r.total_batches.getD 0 = 0 → reported_pct r = 0) := by
  refine ⟨?_, ?_, ?_⟩
  · intro hr htot heq
    unfold reported_status
    rw [if_pos]
    exact ⟨by omega, by rw [hr]; rfl, htot⟩
  · intro htot
    unfold reported_pct
    rw [if_pos htot]
  · intro htot
    unfold reported_pct
    rw [if_neg]
    omega

/-- C3 witness: the projection fires on an `IN_PROGRESS` record with both
counters at 2, and the percentage is 0 on a record without
`total_batches`. -/
theorem c3_projection_witness :
    reported_status ⟨some "IN_PROGRESS", some 2, some 2, none, none⟩ =
      some "PROCESSING_COMPLETE" ∧
    reported_pct ⟨some "COMPLETED", none, some 5, none, none⟩ = 0 :=
  ⟨(c3_projection _).1 rfl (by decide) rfl, (c3_projection _).2.2 rfl⟩

/-- C10: the status endpoint projects `PROCESSING_COMPLETE` exactly when
the stored status is `IN_PROGRESS`, `total_batches > 0` and
`processed_batches >= total_batches`; for every other stored status -
`STITCHING`, `COMPLETED`, `STITCHING_FAILED`, `SPLITTER_FAILED`,
`FAILED_NO_BATCHES_COMPLETED` - the stored status is returned unchanged
even when `processed_batches >= total_batches`. -/
theorem c10_projection_gating (r : JobRecord) :
    (r.status = some "IN_PROGRESS" →
      (reported_status r = some "PROCESSING_COMPLETE" ↔
        0 < r.total_batches.getD 0 ∧
          r.total_batches.getD 0 ≤ r.processed_batches.getD 0)) ∧
    (∀ st ∈ ["STITCHING", "COMPLETED", "STITCHING_FAILED", "SPLITTER_FAILED",
        "FAILED_NO_BATCHES_COMPLETED"],
      r.status = some st → reported_status r = some st) := by
  constructor
  · intro hr
    have hgetd : r.status.getD "UNKNOWN" = "IN_PROGRESS" := by rw [hr]; rfl
    by_cases hc : 0 < r.total_batches.getD 0 ∧
        r.total_batches.getD 0 ≤ r.processed_batches.getD 0
    · have hrep : reported_status r = some "PROCESSING_COMPLETE" := by
        unfold reported_status
        rw [if_pos ⟨hc.2, hgetd, hc.1⟩]
      simp [hrep, hc]
    · have hrep : reported_status r = r.status := by
        unfold reported_status
        rw [if_neg]
        intro hcond
        exact hc ⟨hcond.2.2, hcond.1⟩
      rw [hrep, hr]
      constructor
      · intro heq
        exact absurd (Option.some.inj heq) (by decide)
      · intro hcc
        exact absurd hcc hc
  · intro st hst hr
    refine reported_status_of_ne r st hr ?_
    fin_cases hst <;> decide

/-- C10 witness: terminal and intermediate stored statuses are returned
unchanged even with `processed_batches >= total_batches > 0`. -/
theorem c10_projection_gating_witness :
    reported_status ⟨some "STITCHING", some 2, some 2, none, none⟩ = some "STITCHING" ∧
    reported_status ⟨some "COMPLETED", some 3, some 7, none, none⟩ = some "COMPLETED" :=
  ⟨(c10_projection_gating _).2 "STITCHING" (by decide) rfl,
   (c10_projection_gating _).2 "COMPLETED" (by decide) rfl⟩

lemma splitComma_of_no_comma (l : List Char) (h : ',' ∉ l) : splitComma l = [l] := by
  induction l with
  | nil => rfl
  | cons c t ih =>
    have hc : c ≠ ',' := fun hcc => h (hcc ▸ List.mem_cons_self c t)
    have ht : ',' ∉ t := fun htt => h (List.mem_cons_of_mem c htt)
    simp only [splitComma, ih ht]
    rw [if_neg hc]

lemma pyStrip_all_space (l : List Char) (h : ∀ c ∈ l, isSpace c = true) :
    pyStrip l = [] := by
  unfold pyStrip
  rw [List.dropWhile_eq_nil_iff.mpr h]
  rfl

/-- C5 counterexample: the claim fails on the code.  A whitespace-only
label string " " is truthy in Python, so `if not labels_str` does not fire
and neither stage falls back: the candidate list comes out empty instead
of the (non-empty) default label set, in the zero-shot stage and the ABSA
stage alike. -/
theorem c5_label_fallback_counterexample :
    resolve_labels (some (strL " ")) DEFAULT_ZERO_SHOT_LABELS = [] ∧
    resolve_labels (some (strL " ")) DEFAULT_ABSA_LABELS = [] ∧
    resolve_labels none DEFAULT_ZERO_SHOT_LABELS ≠ [] ∧
    resolve_labels none DEFAULT_ABSA_LABELS ≠ [] := by
  refine ⟨by decide, by decide, by decide, by decide⟩

/-- C5 amended: both stages fall back to their fixed default label sets
when the user-supplied label string is absent (`None`) or exactly the
empty string; a string that is merely empty after trimming (e.g.
whitespace-only) is not detected, yields an empty candidate-label list,
and each record then receives the "N/A (No labels provided)" sentinel instead
of default-label enrichment. -/
theorem c5_label_fallback :
    resolve_labels none DEFAULT_ZERO_SHOT_LABELS =
      [strL "price", strL "quality", strL "shipping", strL "customer service",
       strL "fit", strL "fabric"] ∧
    resolve_labels (some []) DEFAULT_ZERO_SHOT_LABELS =
      [strL "price", strL "quality", strL "shipping", strL "customer service",
       strL "fit", strL "fabric"] ∧
    resolve_labels none DEFAULT_ABSA_LABELS =
      [strL "slow delivery", strL "fast delivery", strL "damaged box",
       strL "good quality", strL "poor quality", strL "good fit",
       strL "tight fit", strL "good price", strL "expensive"] ∧
    resolve_labels (some []) DEFAULT_ABSA_LABELS =
      [strL "slow delivery", strL "fast delivery", strL "damaged box",
       strL "good quality", strL "poor quality", strL "good fit",
       strL "tight fit", strL "good price", strL "expensive"] ∧
    (∀ w : List Char, w ≠ [] → (∀ c ∈ w, isSpace c = true) →
      ∀ d : List Char, resolve_labels (some w) d = []) ∧
    (∀ (zs : List Char → Except Unit (List (List Char))) (text : List Char),
      ¬(text = [] ∨ pyStrip text = []) →
      get_top_topic zs [] text = strL "N/A (No labels provided)") ∧
    (∀ (clf : List Char → Except Unit (List (List Char × ℚ))) (threshold : ℚ)
        (text : List Char), pyStrip text ≠ [] →
      get_aspects clf [] threshold text = strL "N/A (No labels provided)") := by
  refine ⟨by decide, by decide, by decide, by decide, ?_, ?_, ?_⟩
  · intro w hne hsp d
    have hcomma : ',' ∉ w := by
      intro hmem
      have := hsp ',' hmem
      simp [isSpace] at this
    show parseLabels (if w = [] then d else w) = []
    rw [if_neg hne]
    unfold parseLabels
    rw [splitComma_of_no_comma w hcomma]
    simp [pyStrip_all_space w hsp]
  · intro zs text htext
    unfold get_top_topic
    rw [if_neg htext, if_pos rfl]
  · intro clf threshold text htext
    unfold get_aspects
    rw [if_neg htext, if_pos rfl]

/-- C5 witness: the fallback statements applied to a two-space label
string and to a record with non-blank text and no candidate labels. -/
theorem c5_label_fallback_witness :
    resolve_labels (some (strL "  ")) DEFAULT_ZERO_SHOT_LABELS = [] ∧
    get_top_topic (fun _ => Except.ok [strL "price"]) [] (strL "great") =
      strL "N/A (No labels provided)" ∧
    get_aspects (fun _ => Except.error ()) [] (6 / 10) (strL "great") =
      strL "N/A (No labels provided)" :=
  ⟨c5_label_fallback.2.2.2.2.1 (strL "  ") (by decide) (by decide)
      DEFAULT_ZERO_SHOT_LABELS,
   c5_label_fallback.2.2.2.2.2.1 (fun _ => Except.ok [strL "price"]) (strL "great")
      (by decide),
   c5_label_fallback.2.2.2.2.2.2 (fun _ => Except.error ()) (6 / 10) (strL "great")
      (by decide)⟩

lemma filterMap_id_length_of_no_none {α : Type} (l : List (Option α))
    (h : none ∉ l) : (l.filterMap id).length = l.length := by
  induction l with
  | nil => rfl
  | cons x t ih =>
    cases x with
    | none => exact absurd (List.mem_cons_self none t) h
    | some a =>
      have ht : none ∉ t := fun htt => h (List.mem_cons_of_mem _ htt)
      simp [List.filterMap_cons, ih ht]

lemma filterMap_id_length_lt {α : Type} (l : List (Option α)) (h : none ∈ l) :
    (l.filterMap id).length < l.length := by
  induction l with
  | nil => simp at h
  | cons x t ih =>
    cases x with
    | none =>
      have := List.length_filterMap_le id t
      simp only [List.filterMap_cons, id, List.length_cons]
      omega
    | some a =>
      have ht : none ∈ t := by
        rcases List.mem_cons.mp h with hx | hx
        · exact absurd hx.symm (by simp)
        · exact hx
      simp only [List.filterMap_cons, id, List.length_cons]
      have := ih ht
      omega

/-- C6 counterexample: the claim fails on the code.  A merged record set
with exactly one record whose text is the empty string (non-null) has zero
non-empty documents, yet `dropna()` keeps the empty string, so `docs` is
non-empty (and as long as the frame): topic modelling runs, a
topic-summary artifact IS produced, and the record receives the fitted
topic id instead of the unclustered/outlier sentinel -1. -/
theorem c6_topic_discovery_counterexample :
    (([some []] : List (Option (List Char))).filterMap id).filter
        (fun d => !d.isEmpty) = [] ∧
    stitcher_topics (fun ds => (ds.map (fun _ => (0 : Int)), (0 : Nat)))
        [some []] = StitchOutcome.ok [0] (some 0) ∧
    StitchOutcome.ok [0] (some 0) ≠
      (StitchOutcome.ok [-1] none : StitchOutcome Nat) := by
  refine ⟨by decide, by decide, by decide⟩

/-- C6 amended: corpus-level topic discovery runs over exactly the
non-null text values (empty strings included, in record order), for any
topic model that returns one assignment per document.  When the merged set
has at least one record and no nulls, the fitted assignments are attached
and the topic-summary artifact is written; when there are zero non-null
documents, every record is assigned the unclustered/outlier sentinel -1
and no summary is generated; when nulls coexist with non-null texts, the
per-record assignment raises a length-mismatch `ValueError`, the job ends
`STITCHING_FAILED`, and neither assignments nor a summary are produced. -/
theorem c6_topic_discovery {T : Type} (fit : List (List Char) → List Int × T)
    (texts : List (Option (List Char)))
    (hfit : ∀ ds : List (List Char), (fit ds).1.length = ds.length) :
    (texts.filterMap id = [] →
      stitcher_topics fit texts = .ok (texts.map (fun _ => -1)) none) ∧
    (none ∉ texts → texts ≠ [] →
      stitcher_topics fit texts =
        .ok (fit (texts.filterMap id)).1 (some (fit (texts.filterMap id)).2)) ∧
    (none ∈ texts → texts.filterMap id ≠ [] →
      stitcher_topics fit texts = .failed) := by
  refine ⟨?_, ?_, ?_⟩
  · intro hdocs
    unfold stitcher_topics
    rw [if_pos (List.isEmpty_iff.mpr hdocs)]
  · intro hno hne
    have hlen : (texts.filterMap id).length = texts.length :=
      filterMap_id_length_of_no_none texts hno
    have hemp : ¬(texts.filterMap id).isEmpty = true := by
      rw [List.isEmpty_iff]
      intro h0
      rw [h0] at hlen
      exact hne (List.eq_nil_of_length_eq_zero hlen.symm)
    unfold stitcher_topics
    rw [if_neg hemp, if_pos]
    rw [hfit]
    exact hlen
  · intro hnone hdocs
    have hlt : (texts.filterMap id).length < texts.length :=
      filterMap_id_length_lt texts hnone
    unfold stitcher_topics
    rw [if_neg (fun hemp => hdocs (List.isEmpty_iff.mp hemp)), if_neg]
    rw [hfit]
    omega

/-- C6 witness: a null-free two-record set gets its fitted assignments and
a written summary; an all-null set gets the sentinel -1 everywhere and no
summary; a mixed null/non-null set hits the length-mismatch failure. -/
theorem c6_topic_discovery_witness :
    stitcher_topics (fun ds => (ds.map (fun _ => (0 : Int)), ds.length))
        [some (strL "a"), some (strL "b")] = StitchOutcome.ok [0, 0] (some 2) ∧
    stitcher_topics (fun ds => (ds.map (fun _ => (0 : Int)), ds.length))
        [none, none] = StitchOutcome.ok [-1, -1] none ∧
    stitcher_topics (fun ds => (ds.map (fun _ => (0 : Int)), ds.length))
        [none, some (strL "a")] = StitchOutcome.failed := by
  have hfit : ∀ ds : List (List Char),
      ((fun ds : List (List Char) => (ds.map (fun _ => (0 : Int)), ds.length)) ds).1.length
        = ds.length := by
    intro ds
    simp
  refine ⟨?_, ?_, ?_⟩
  · rw [(c6_topic_discovery (fun ds => (ds.map (fun _ => (0 : Int)), ds.length))
        [some (strL "a"), some (strL "b")] hfit).2.1 (by decide) (by decide)]
    decide
  · rw [(c6_topic_discovery (fun ds => (ds.map (fun _ => (0 : Int)), ds.length))
        [none, none] hfit).1 (by decide)]
    decide
  · exact (c6_topic_discovery (fun ds => (ds.map (fun _ => (0 : Int)), ds.length))
        [none, some (strL "a")] hfit).2.2 (by decide) (by decide)

lemma map_getD {α β : Type} (f : α → β) (l : List α) (i : Nat) (d : β) (e : α)
    (hi : i < l.length) : (l.map f).getD i d = f (l.getD i e) := by
  rw [List.getD_eq_getElem?_getD, List.getD_eq_getElem?_getD, List.getElem?_map,
    List.getElem?_eq_getElem hi]
  rfl

/-- C7: a single record's inference failure never fails the batch.  In the
sentiment stage the derived column has one entry per record, the entry of
a record whose pipeline call raises is the sentinel "ERROR", and every
other record still gets its own pipeline label.  In the ABSA stage the
derived column likewise has one entry per record, a record whose
classifier call raises gets the sentinel "PREDICTION_ERROR", and
irrespective of any per-record failures the handler still persists the
batch artifact and increments `processed_batches` by exactly 1. -/
theorem c7_per_record_fault_isolation
    (pipe : List Char → Except Unit (List Char))
    (clf : List Char → Except Unit (List (List Char × ℚ)))
    (labels_cfg : Option (List Char)) (threshold : ℚ)
    (texts : List (List Char)) (rec : JobRecord) :
    ((sentiment_handler pipe texts).2.length = texts.length) ∧
    (∀ i : Nat, i < texts.length →
      (sentiment_handler pipe texts).2.getD i [] =
        get_sentiment pipe (sanitize_chars (texts.getD i []))) ∧
    (∀ t : List Char, pipe (t.take 512) = Except.error () →
      get_sentiment pipe t = strL "ERROR") ∧
    (∀ (t : List Char) (lab : List Char), pipe (t.take 512) = Except.ok lab →
      get_sentiment pipe t = lab) ∧
    ((absa_handler clf labels_cfg threshold texts (some rec)).aspects.length =
      texts.length) ∧
    (∀ i : Nat, i < texts.length →
      (absa_handler clf labels_cfg threshold texts (some rec)).aspects.getD i [] =
        get_aspects clf (resolve_labels labels_cfg DEFAULT_ABSA_LABELS) threshold
          (texts.getD i [])) ∧
    (∀ t : List Char, pyStrip t ≠ [] →
      resolve_labels labels_cfg DEFAULT_ABSA_LABELS ≠ [] →
      clf (truncate400 t) = Except.error () →
      get_aspects clf (resolve_labels labels_cfg DEFAULT_ABSA_LABELS) threshold t =
        strL "PREDICTION_ERROR") ∧
    ((absa_handler clf labels_cfg threshold texts (some rec)).artifact =
      some ((absa_handler clf labels_cfg threshold texts (some rec)).aspects)) ∧
    ((absa_handler clf labels_cfg threshold texts (some rec)).record =
      some { rec with processed_batches := some (rec.processed_batches.getD 0 + 1) }) := by
  refine ⟨by simp [sentiment_handler], ?_, ?_, ?_, by simp [absa_handler], ?_, ?_,
    rfl, by simp [absa_handler, addProcessed]⟩
  · intro i hi
    show ((texts.map sanitize_chars).map (get_sentiment pipe)).getD i [] = _
    rw [map_getD (get_sentiment pipe) (texts.map sanitize_chars) i [] []
        (by simpa using hi),
      map_getD sanitize_chars texts i [] [] hi]
  · intro t h
    unfold get_sentiment
    rw [h]
  · intro t lab h
    unfold get_sentiment
    rw [h]
  · intro i hi
    show (texts.map _).getD i [] = _
    rw [map_getD _ texts i [] [] hi]
  · intro t h1 h2 h3
    unfold get_aspects
    rw [if_neg h1, if_neg h2, h3]

/-- C7 witness: a three-record batch whose middle record makes the
pipeline raise still yields a full three-entry column with the sentinel in
the middle, and a one-record ABSA batch whose classifier raises still
increments the counter from 1 to 2. -/
theorem c7_per_record_fault_isolation_witness :
    get_sentiment
      (fun t => if t = strL "bad" then Except.error () else Except.ok (strL "POSITIVE"))
      (strL "bad") = strL "ERROR" ∧
    get_sentiment
      (fun t => if t = strL "bad" then Except.error () else Except.ok (strL "POSITIVE"))
      (strL "nice") = strL "POSITIVE" ∧
    (sentiment_handler
      (fun t => if t = strL "bad" then Except.error () else Except.ok (strL "POSITIVE"))
      [strL "good", strL "bad", strL "nice"]).2.length = 3 ∧
    (absa_handler (fun _ => Except.error ()) none (6 / 10) [strL "good review"]
        (some ⟨some "IN_PROGRESS", some 3, some 1, none, none⟩)).record =
      some ⟨some "IN_PROGRESS", some 3, some 2, none, none⟩ := by
  have h := c7_per_record_fault_isolation
    (fun t => if t = strL "bad" then Except.error () else Except.ok (strL "POSITIVE"))
    (fun _ => Except.error ()) none (6 / 10) [strL "good", strL "bad", strL "nice"]
    ⟨some "IN_PROGRESS", some 3, some 1, none, none⟩
  have h2 := c7_per_record_fault_isolation
    (fun t => if t = strL "bad" then Except.error () else Except.ok (strL "POSITIVE"))
    (fun _ => Except.error ()) none (6 / 10) [strL "good review"]
    ⟨some "IN_PROGRESS", some 3, some 1, none, none⟩
  refine ⟨h.2.2.1 (strL "bad") rfl, h.2.2.2.1 (strL "nice") (strL "POSITIVE")
      rfl, h.1, ?_⟩
  rw [h2.2.2.2.2.2.2.2.2]
  decide

end ReviewLens
